import Mathlib

/-
  Verification development for the BK loyalty API (Azure Functions, JavaScript).

  Shallow embedding conventions:
  * JS `Date` values are modelled at calendar-day granularity as an integer
    count of days since the civil epoch 1970-01-01 (`daysFromCivil`), since
    every comparison the code performs on dates first truncates them to a
    calendar day (local or UTC midnight).  Millisecond scores in
    `normalizeReceiptDate` are day differences multiplied by the constant
    86400000, so comparing day distances is order-equivalent.
  * JS numbers carrying currency amounts are modelled as `ℚ` (the concrete
    values the claims exercise — 42.50, 75, 80 — are exactly representable
    as binary doubles, so `ℚ` arithmetic agrees with JS on them).
  * Point balances are modelled as `ℤ`.
  * The in-memory stores (`Map` objects of fake-db.js, resp. the Cosmos
    containers of db.js) are modelled as lists of records plus, for the
    users map whose only observable is the per-user balance defaulting to
    zero, a total function `String → ℤ`.
  * Fallible JS values (`null` / absent fields) are `Option`.
-/

namespace BK

/-- Civil-calendar day number (days since 1970-01-01) of the date
`(y, m, d)`, following the standard `days_from_civil` algorithm.  The
formula is linear in `d`, so an out-of-range day such as February 31 rolls
over into the next month exactly as the JS `new Date(y, m-1, d)`
constructor does.  All divisions below are applied to non-negative values
for every input reachable in this development, so the rounding convention
of `Int` division is immaterial. -/
def daysFromCivil (y m d : Int) : Int :=
  let y' : Int := y - (if m ≤ 2 then 1 else 0)
  let era : Int := (if 0 ≤ y' then y' else y' - 399) / 400
  let yoe : Int := y' - era * 400
  let doy : Int := (153 * (m + (if 2 < m then -3 else 9)) + 2) / 5 + d - 1
  let doe : Int := yoe * 365 + yoe / 4 - yoe / 100 + doy
  era * 146097 + doe - 719468

/- ------------------------------------------------------------------
   document-intelligence.js : normalizeReceiptDate

   The JS code extracts the first match of the regular expression
   /(\d{1,2})[\/\-.](\d{1,2})[\/\-.](\d{2,4})/ from the (trimmed) raw
   date text.  `findMatch` below reproduces the leftmost-match,
   greedy-with-backtracking semantics of that pattern over a list of
   characters: starting positions are tried left to right, and at each
   position the quantifier lengths are tried in the order
   (2,2,4), (2,2,3), (2,2,2), (2,1,4), ..., (1,1,2) — the last
   quantifier backtracks first, each from its greedy maximum.
   ------------------------------------------------------------------ -/

/-- ASCII separator characters accepted between the date components:
`/`, `-`, `.` (the character class `[\/\-.]`). -/
def isSep (c : Char) : Bool :=
  c = '/' || c = '-' || c = '.'

/-- Numeric value of a list of ASCII digits (most significant first),
as JS `parseInt` computes it on an all-digit string. -/
def digitsVal (cs : List Char) : Nat :=
  cs.foldl (fun a c => a * 10 + (c.toNat - 48)) 0

/-- Match exactly `n` ASCII digits at the head of `s`; return their
numeric value and the rest of the input. -/
def matchDigits (n : Nat) (s : List Char) : Option (Nat × List Char) :=
  if n ≤ s.length && (s.take n).all Char.isDigit then
    some (digitsVal (s.take n), s.drop n)
  else
    none

/-- Match one separator character at the head of `s`. -/
def matchSep (s : List Char) : Option (List Char) :=
  match s with
  | [] => none
  | c :: rest => if isSep c then some rest else none

/-- Attempt the date pattern at the head of `s` with fixed component
widths `(a, b, c)` for day-ish, month-ish, year fields. -/
def tryWidths (a b c : Nat) (s : List Char) : Option (Nat × Nat × Nat) := do
  let (p1, s1) ← matchDigits a s
  let s2 ← matchSep s1
  let (p2, s3) ← matchDigits b s2
  let s4 ← matchSep s3
  let (y, _) ← matchDigits c s4
  pure (p1, p2, y)

/-- Attempt the date pattern anchored at the head of `s`, trying the
quantifier widths in JS backtracking order. -/
def matchAt (s : List Char) : Option (Nat × Nat × Nat) :=
  tryWidths 2 2 4 s <|> tryWidths 2 2 3 s <|> tryWidths 2 2 2 s <|>
  tryWidths 2 1 4 s <|> tryWidths 2 1 3 s <|> tryWidths 2 1 2 s <|>
  tryWidths 1 2 4 s <|> tryWidths 1 2 3 s <|> tryWidths 1 2 2 s <|>
  tryWidths 1 1 4 s <|> tryWidths 1 1 3 s <|> tryWidths 1 1 2 s

/-- Leftmost match of the date pattern in `s` (JS `text.match(pattern)`
without the global flag): starting positions tried left to right. -/
def findMatch : List Char → Option (Nat × Nat × Nat)
  | [] => none
  | c :: rest => matchAt (c :: rest) <|> findMatch rest

/-- Two-digit year fixup of normalizeReceiptDate:
`year >= 70 ? 1900 + year : 2000 + year` when `year < 100`. -/
def fixYear (y : Nat) : Nat :=
  if y < 100 then (if 70 ≤ y then 1900 + y else 2000 + y) else y

/-- `pushCandidate(day, month)` of normalizeReceiptDate: the candidate is
kept when `1 ≤ day ≤ 31` and `1 ≤ month ≤ 12`, and contributes the
calendar day of `new Date(year, month - 1, day)` (local midnight). -/
def pushCandidate (yr day month : Nat) : List Int :=
  if 1 ≤ day ∧ day ≤ 31 ∧ 1 ≤ month ∧ month ≤ 12 then
    [daysFromCivil yr month day]
  else
    []

/-- The candidate list of normalizeReceiptDate: the day-first
interpretation `(part1 = day, part2 = month)` is always attempted, and
the month-first interpretation `(part2 = day, part1 = month)` is
attempted when `part1 ≤ 12 && part2 ≤ 31`. -/
def candidates (yr p1 p2 : Nat) : List Int :=
  pushCandidate yr p1 p2 ++
    (if p1 ≤ 12 ∧ p2 ≤ 31 then pushCandidate yr p2 p1 else [])

/-- The selection loop of normalizeReceiptDate: starting from the
current best, replace it exactly when a later candidate has a strictly
smaller distance to the midnight of `now`.  The JS scores are
millisecond differences between local midnights, i.e. day differences
scaled by 86400000, so comparing day distances is order-equivalent. -/
def closestFold (now a : Int) (l : List Int) : Int :=
  l.foldl (fun best x => if |x - now| < |best - now| then x else best) a

/-- The candidate chosen by normalizeReceiptDate (`none` on an empty
candidate list). -/
def chooseClosest (now : Int) : List Int → Option Int
  | [] => none
  | c :: rest => some (closestFold now c rest)

/-- normalizeReceiptDate, on the branch where the trimmed raw text
matches the `D/M/Y`-vs-`M/D/Y` pattern.  The no-match branch of the JS
function falls back to native `new Date(text)` parsing, which is outside
this model; it is represented by the outer `none`.  The inner option is
the function's `date` result (`none` = `{date: null}`). -/
def normalizeReceiptDate (text : List Char) (now : Int) : Option (Option Int) :=
  match findMatch text with
  | none => none
  | some (p1, p2, y) => some (chooseClosest now (candidates (fixYear y) p1 p2))

/- ------------------------------------------------------------------
   upload-receipt.js : the receipt validation pipeline.

   The handler is modelled from the point where authentication and JSON
   body parsing have succeeded (the earlier 401/400 guards are not part
   of any claim below).  The SHA-256 fingerprint of the image bytes is
   modelled as an opaque `Nat` (the hash of equal bytes is equal; the
   claims only compare fingerprints for equality).  Blob storage only
   produces an URL echoed back to the client and is not modelled.
   ------------------------------------------------------------------ -/

/-- upload-receipt.js: `MAX_RECEIPT_AGE_DAYS = 2`. -/
def MAX_RECEIPT_AGE_DAYS : Int := 2

/-- upload-receipt.js: `DAILY_RECEIPT_LIMIT = 3`. -/
def DAILY_RECEIPT_LIMIT : Nat := 3

/-- upload-receipt.js: `MAX_AMOUNT_FOR_POINTS = 80`. -/
def MAX_AMOUNT_FOR_POINTS : ℚ := 80

/-- Result object of `analyzeReceipt` (document-intelligence.js): every
field is best-effort and may be absent (`null` in JS). -/
structure Analysis where
  amount : Option ℚ
  merchantName : Option String
  transactionDate : Option Int
  rawDateText : Option String
  hasBurgerKing : Option Bool
deriving DecidableEq

/-- JS string truthiness: an empty string behaves as `null` in the
`analysis && analysis.field ? analysis.field : null` guards. -/
def normStr (o : Option String) : Option String :=
  match o with
  | none => none
  | some s => if s = "" then none else some s

/-- The field extraction block of the handler (upload-receipt.js lines
101-120): a thrown extractor error leaves `analysis = null` and every
field is treated as absent. -/
structure Extracted where
  amount : Option ℚ
  merchantName : Option String
  transactionDate : Option Int
  rawDateText : Option String
  hasBurgerKing : Option Bool
deriving DecidableEq

def extractFields (analysis : Option Analysis) : Extracted :=
  match analysis with
  | none => ⟨none, none, none, none, none⟩
  | some a => ⟨a.amount, normStr a.merchantName, a.transactionDate, normStr a.rawDateText, a.hasBurgerKing⟩

/-- `computeReceiptAgeDays`: both instants are truncated to their UTC
calendar day, so the result is the whole number of days from the receipt
day to the current day (negative when the receipt day lies ahead). -/
def computeReceiptAgeDays (receiptDay nowDay : Int) : Int :=
  nowDay - receiptDay

/-- The machine-readable reason codes pushed by the handler. -/
inductive UploadReason where
  | MERCHANT_NOT_BURGER_KING
  | RECEIPT_TOO_OLD
  | RECEIPT_IN_FUTURE
  | DATE_NOT_DETECTED
  | INVALID_AMOUNT
deriving DecidableEq

/-- Merchant check: reject only on a confirmed mismatch
(`hasBurgerKing === false`); `null` (unknown) does not block. -/
def merchantReasons (hasBK : Option Bool) : List UploadReason :=
  if hasBK = some false then [.MERCHANT_NOT_BURGER_KING] else []

/-- Date check of the handler: with a resolved date, an age above
`MAX_RECEIPT_AGE_DAYS` is too old and an age below `-1` is in the
future; with no resolved date, `DATE_NOT_DETECTED`. -/
def dateReasons (txDate : Option Int) (nowDay : Int) : List UploadReason :=
  match txDate with
  | some d =>
      let age := computeReceiptAgeDays d nowDay
      if MAX_RECEIPT_AGE_DAYS < age then [.RECEIPT_TOO_OLD]
      else if age < -1 then [.RECEIPT_IN_FUTURE]
      else []
  | none => [.DATE_NOT_DETECTED]

/-- `amount === null || Number.isNaN(amount) || amount <= 0`. -/
def amountInvalid (amount : Option ℚ) : Bool :=
  match amount with
  | none => true
  | some a => decide (a ≤ 0)

def amountReasons (amount : Option ℚ) : List UploadReason :=
  if amountInvalid amount then [.INVALID_AMOUNT] else []

/-- The `reasons` array in the order the handler pushes them:
merchant, then date, then amount. -/
def buildReasons (e : Extracted) (nowDay : Int) : List UploadReason :=
  merchantReasons e.hasBurgerKing ++ dateReasons e.transactionDate nowDay
    ++ amountReasons e.amount

/-- The `hasBlocking` disjunction of the handler, transcribed code by
code: merchant and date reasons block, `INVALID_AMOUNT` does not. -/
def isBlockingReason (r : UploadReason) : Bool :=
  r = .MERCHANT_NOT_BURGER_KING || r = .RECEIPT_TOO_OLD ||
  r = .RECEIPT_IN_FUTURE || r = .DATE_NOT_DETECTED

def hasBlocking (reasons : List UploadReason) : Bool :=
  reasons.any isBlockingReason

/-- The non-blocking fallback: `if (amountInvalid) amount = 75`. -/
def resolveAmount (amount : Option ℚ) : ℚ :=
  match amount with
  | none => 75
  | some a => if a ≤ 0 then 75 else a

/-- A persisted receipt document (db.js / fake-db.js `createReceipt`):
`createdDay` is the server-local calendar day of `createdAt`, the
granularity at which `countReceiptsForUserOnDay` inspects it. -/
structure ReceiptRec where
  userId : String
  imageHash : Nat
  amount : ℚ
  pointsEarned : Int
  merchantName : Option String
  receiptDate : Option Int
  createdDay : Int
deriving DecidableEq

/-- The state touched by the upload handler: the users map (observable
only through each user's balance, zero when absent) and the receipts
store. -/
structure UploadDb where
  users : String → Int
  receipts : List ReceiptRec

/-- fake-db.js `findReceiptByImageHash`: scan all receipts (any user)
for a matching fingerprint. -/
def findReceiptByImageHash (receipts : List ReceiptRec) (h : Nat) : Option ReceiptRec :=
  receipts.find? (fun r => r.imageHash == h)

/-- fake-db.js `countReceiptsForUserOnDay`: receipts of this user whose
creation instant falls inside the local calendar day `[start, end)`. -/
def countReceiptsForUserOnDay (receipts : List ReceiptRec) (userId : String) (day : Int) : Nat :=
  (receipts.filter (fun r => r.userId == userId && r.createdDay == day)).length

/-- fake-db.js `addPoints`: ensure the user exists, add the delta,
return the new balance. -/
def addPoints (users : String → Int) (userId : String) (delta : Int) :
    (String → Int) × Int :=
  let newPoints := users userId + delta
  (fun x => if x = userId then newPoints else users x, newPoints)

/-- The JSON responses of the upload handler.  Each constructor carries
exactly the data fields of the corresponding `jsonBody` object (the
generated receipt id and blob URL, opaque to every claim, are omitted).
Only the `RECEIPT_REJECTED` body contains a `reasons` array; the
success body has no such field. -/
inductive UploadResponse where
  | duplicateReceipt
  | receiptRejected (reasons : List UploadReason) (amount : Option ℚ)
      (transactionDate : Option Int) (rawDateText : Option String)
      (merchantName : Option String)
  | dailyLimitReached
  | success (userId : String) (amount : ℚ) (pointsEarned : Int)
      (newBalance : Int) (transactionDate : Option Int)
      (rawDateText : Option String) (merchantName : Option String)
deriving DecidableEq

/-- HTTP status of each upload response. -/
def UploadResponse.status : UploadResponse → Nat
  | .success .. => 200
  | _ => 400

/-- Whether a response is the 200 acceptance body. -/
def UploadResponse.isSuccess : UploadResponse → Bool
  | .success .. => true
  | _ => false

/-- Whether a response body surfaces the `INVALID_AMOUNT` advisory
reason to the caller.  The rejection body is the only one carrying a
`reasons` array; the success `jsonBody` consists of the fields
`userId, amount, pointsEarned, newBalance, receiptId, receiptBlobUrl,
transactionDate, rawDateText, merchantName` and mentions no reason. -/
def mentionsInvalidAmount : UploadResponse → Bool
  | .receiptRejected reasons _ _ _ _ => reasons.contains .INVALID_AMOUNT
  | _ => false

structure UploadOutcome where
  response : UploadResponse
  db : UploadDb
  extractorCalled : Bool

/-- The handler after the duplicate short-circuit: extraction, reason
collection, blocking decision, amount fallback, daily cap, point
computation, persistence, credit. -/
def uploadAfterDupCheck (db : UploadDb) (userId : String) (imageHash : Nat)
    (analysis : Option Analysis) (nowDay : Int) : UploadResponse × UploadDb :=
  let e := extractFields analysis
  let reasons := buildReasons e nowDay
  if hasBlocking reasons then
    (.receiptRejected reasons e.amount e.transactionDate e.rawDateText e.merchantName, db)
  else
    let amount := resolveAmount e.amount
    if DAILY_RECEIPT_LIMIT ≤ countReceiptsForUserOnDay db.receipts userId nowDay then
      (.dailyLimitReached, db)
    else
      let pointsEarned : Int := ⌊min amount MAX_AMOUNT_FOR_POINTS⌋
      let receipt : ReceiptRec :=
        ⟨userId, imageHash, amount, pointsEarned, e.merchantName, e.transactionDate, nowDay⟩
      let credited := addPoints db.users userId pointsEarned
      (.success userId amount pointsEarned credited.2 e.transactionDate e.rawDateText e.merchantName,
       ⟨credited.1, db.receipts ++ [receipt]⟩)

/-- The upload handler: the duplicate-fingerprint check runs before the
document extractor is invoked (`extractorCalled` records whether control
reached the `analyzeReceipt` call). -/
def uploadReceipt (db : UploadDb) (userId : String) (imageHash : Nat)
    (analysis : Option Analysis) (nowDay : Int) : UploadOutcome :=
  match findReceiptByImageHash db.receipts imageHash with
  | some _ => ⟨.duplicateReceipt, db, false⟩
  | none =>
      let r := uploadAfterDupCheck db userId imageHash analysis nowDay
      ⟨r.1, r.2, true⟩

/- ------------------------------------------------------------------
   fake-db.js / db.js : rewards, and the redeem-reward and
   validate-reward handlers.

   The rewards `Map` is modelled as a list of documents with lookup by
   id (`List.find?`) and in-place mutation as a map over the list that
   rewrites the matching document.  Timestamps (`createdAt`,
   `redeemedAt`) are opaque instants modelled as `Int`.
   ------------------------------------------------------------------ -/

/-- A persisted reward document. -/
structure Reward where
  id : String
  userId : String
  name : String
  pointsCost : Int
  tier : Option String
  redeemed : Bool
  createdAt : Int
  redeemedAt : Option Int
deriving DecidableEq

/-- fake-db.js `createReward`: ensure the user, guard the balance, debit
and append a fresh un-redeemed reward.  `Except.error` models the thrown
`NOT_ENOUGH_POINTS` error; on that path the users map gains at most the
implicit zero entry of `ensureUser`, which the balance-function model
absorbs (the balance of every user is unchanged), and no reward is
created.  Point costs are modelled as integers. -/
def createReward (users : String → Int) (rewards : List Reward)
    (userId name : String) (pointsCost : Int) (tier : Option String)
    (newId : String) (now : Int) :
    Except Unit ((String → Int) × List Reward × Reward × Int) :=
  let current := users userId
  if current < pointsCost then
    .error ()
  else
    let newPoints := current - pointsCost
    let users' : String → Int := fun x => if x = userId then newPoints else users x
    let reward : Reward :=
      ⟨newId, userId, name, pointsCost, tier, false, now, none⟩
    .ok (users', rewards ++ [reward], reward, newPoints)

/-- redeem-reward.js `REWARD_TIERS`. -/
def REWARD_TIERS (tag : String) : Option (String × Int) :=
  if tag = "FREE_SIDE" then some ("🥤 Free side (≤ 15 MAD)", 10)
  else if tag = "FREE_SANDWICH" then some ("🍔 Free sandwich (≤ 35 MAD)", 25)
  else if tag = "FREE_MENU" then some ("🍔+🥤 Free menu (≤ 60 MAD)", 40)
  else none

/-- Parsed body of a redeem-reward request (any field may be absent). -/
structure RedeemBody where
  tier : Option String
  rewardName : Option String
  pointsCost : Option Int
deriving DecidableEq

/-- Tier resolution of the redeem-reward handler: a recognized catalog
tag wins; otherwise the legacy mode defaults the name to "Free Sundae"
(also on an empty string, which is falsy) and the cost to 100, with a
null tier. -/
def resolveTier (body : RedeemBody) : String × Int × Option String :=
  match body.tier with
  | some t =>
      match REWARD_TIERS t with
      | some (n, c) => (n, c, some t)
      | none => ((normStr body.rewardName).getD "Free Sundae", body.pointsCost.getD 100, none)
  | none => ((normStr body.rewardName).getD "Free Sundae", body.pointsCost.getD 100, none)

/-- Responses of the redeem-reward handler (the generic 500 catch is
`catchResponse` below). -/
inductive RedeemResponse where
  | notEnoughPoints
  | ok (rewardId rewardName : String) (pointsCost : Int) (newBalance : Int)
      (qrPayload : String) (tier : Option String)
deriving DecidableEq

/-- HTTP status of each redeem-reward response. -/
def RedeemResponse.status : RedeemResponse → Nat
  | .notEnoughPoints => 400
  | .ok .. => 200

/-- The redeem-reward handler after authentication and body parsing:
resolve the tier, call `createReward`, map the `NOT_ENOUGH_POINTS`
error to a 400 response, and derive the QR payload `"reward:" + id`
from the new reward's identifier. -/
def redeemRewardHandler (users : String → Int) (rewards : List Reward)
    (userId : String) (body : RedeemBody) (newId : String) (now : Int) :
    RedeemResponse × (String → Int) × List Reward :=
  let resolved := resolveTier body
  match createReward users rewards userId resolved.1 resolved.2.1 resolved.2.2 newId now with
  | .error () => (.notEnoughPoints, users, rewards)
  | .ok (users', rewards', reward, newBalance) =>
      (.ok reward.id reward.name reward.pointsCost newBalance
        ("reward:" ++ reward.id) reward.tier, users', rewards')

/-- Result of `redeemReward` (fake-db.js / db.js): `notFound`,
`alreadyRedeemed` with the untouched document, or `valid` with the
updated document. -/
inductive RedeemOutcome where
  | notFound
  | alreadyRedeemed (reward : Reward)
  | valid (reward : Reward)
deriving DecidableEq

/-- The in-place mutation of `redeemReward`: set `redeemed := true` and
stamp `redeemedAt` with the current instant. -/
def stampRedeemed (now : Int) (r : Reward) : Reward :=
  { r with redeemed := true, redeemedAt := some now }

/-- fake-db.js `redeemReward`: look the reward up by id; if absent,
not found; if already redeemed, return it unchanged; otherwise set
`redeemed := true`, stamp `redeemedAt := now` and persist. -/
def redeemRewardOp (rewards : List Reward) (rewardId : String) (now : Int) :
    RedeemOutcome × List Reward :=
  match rewards.find? (fun r => r.id == rewardId) with
  | none => (.notFound, rewards)
  | some r =>
      if r.redeemed then
        (.alreadyRedeemed r, rewards)
      else
        (.valid (stampRedeemed now r),
         rewards.map (fun rw => if rw.id == rewardId then stampRedeemed now rw else rw))

/- ------------------------------------------------------------------
   client-principal.js : getUserId / isLocalRequest.
   ------------------------------------------------------------------ -/

/-- Leading-segment test over character lists. -/
def startsWithChars : List Char → List Char → Bool
  | [], _ => true
  | _ :: _, [] => false
  | a :: as, b :: bs => a = b && startsWithChars as bs

/-- Substring test over character lists (JS `url.includes("localhost")`). -/
def containsSub (needle haystack : List Char) : Bool :=
  match haystack with
  | [] => needle.isEmpty
  | _ :: rest => startsWithChars needle haystack || containsSub needle rest

/-- client-principal.js `isLocalRequest`: the request URL contains the
substring "localhost". -/
def isLocalRequest (url : String) : Bool :=
  containsSub "localhost".data url.data

/-- client-principal.js `getUserId`.  `principalUserId` is the `userId`
field of the decoded client principal, `none` when the header is
absent, undecodable or not an object (every such case makes
`getClientPrincipalFromRequest` return `null`).  JS truthiness makes an
empty-string `userId` fall through, and an empty `DEV_USER_ID`
environment value fall back to "demo-user-1". -/
def devFallback (devUserIdEnv : Option String) : String :=
  match devUserIdEnv with
  | some s => if s = "" then "demo-user-1" else s
  | none => "demo-user-1"

def getUserId (principalUserId : Option String) (url : String)
    (devUserIdEnv : Option String) : Option String :=
  match principalUserId with
  | some uid =>
      if uid ≠ "" then some uid
      else if isLocalRequest url then some (devFallback devUserIdEnv)
      else none
  | none =>
      if isLocalRequest url then some (devFallback devUserIdEnv)
      else none

/-- The `if (!userId) return 401 UNAUTHENTICATED` guard shared by the
upload-receipt and redeem-reward handlers (JS falsiness: `null` or the
empty string). -/
def rejectsUnauthenticated (userId : Option String) : Bool :=
  match userId with
  | none => true
  | some s => s = ""

/- ------------------------------------------------------------------
   The catch blocks of upload-receipt.js and redeem-reward.js.
   ------------------------------------------------------------------ -/

/-- The 500 response produced by the catch block when a store call
(createReceipt, addPoints, createReward, the Cosmos queries, ...)
throws: `{status: 500, error: "INTERNAL_ERROR", message: err &&
err.message ? err.message : "Unknown error"}`.  `errMessage` is the
`message` property of the thrown error (`none` when absent, and an
empty string is falsy). -/
structure ErrorResponse where
  status : Nat
  error : String
  message : String
deriving DecidableEq

def catchResponse (errMessage : Option String) : ErrorResponse :=
  { status := 500
    error := "INTERNAL_ERROR"
    message :=
      match errMessage with
      | some m => if m = "" then "Unknown error" else m
      | none => "Unknown error" }

/- ==================================================================
   Theorems
   ================================================================== -/

lemma devFallback_ne_empty (devUserIdEnv : Option String) :
    devFallback devUserIdEnv ≠ "" := by
  cases devUserIdEnv with
  | none => simp [devFallback]
  | some s =>
      by_cases h : s = "" <;> simp [devFallback, h]

/-- C10: for a request without a usable client principal, `getUserId`
falls back to `DEV_USER_ID` (default "demo-user-1") exactly when the
request URL contains "localhost", and returns `null` otherwise; the
localhost fallback is always a non-empty string, so such requests never
hit the 401 UNAUTHENTICATED guard. -/
theorem C10_localhost_fallback (principalUserId : Option String) (url : String)
    (devUserIdEnv : Option String)
    (hnp : principalUserId = none ∨ principalUserId = some "") :
    (isLocalRequest url = true →
       getUserId principalUserId url devUserIdEnv = some (devFallback devUserIdEnv) ∧
       rejectsUnauthenticated (getUserId principalUserId url devUserIdEnv) = false) ∧
    (isLocalRequest url = false →
       getUserId principalUserId url devUserIdEnv = none) := by
  have hfb := devFallback_ne_empty devUserIdEnv
  rcases hnp with h | h <;> subst h <;>
    constructor <;> intro hloc <;>
      simp [getUserId, hloc, rejectsUnauthenticated, hfb]

/-- Witness for C10 at a concrete local and a concrete production URL. -/
theorem C10_localhost_fallback_witness :
    getUserId none "http://localhost:7071/api/upload-receipt" none = some "demo-user-1" ∧
    getUserId none "https://app.azurestaticapps.net/api/upload-receipt" none = none := by
  constructor
  · exact ((C10_localhost_fallback none "http://localhost:7071/api/upload-receipt" none
      (Or.inl rfl)).1 (by decide)).1
  · exact (C10_localhost_fallback none "https://app.azurestaticapps.net/api/upload-receipt" none
      (Or.inl rfl)).2 (by decide)

/-- C9 (amended): a store failure yields status 500 with error code
INTERNAL_ERROR, but the `message` field echoes the thrown error's own
message whenever one is present and non-empty; only in its absence does
the generic "Unknown error" appear.  Internal error text is therefore
leaked to the client. -/
theorem C9_internal_error_amended (errMessage : Option String) :
    (catchResponse errMessage).status = 500 ∧
    (catchResponse errMessage).error = "INTERNAL_ERROR" ∧
    (∀ m, errMessage = some m → m ≠ "" → (catchResponse errMessage).message = m) ∧
    (errMessage = none → (catchResponse errMessage).message = "Unknown error") := by
  refine ⟨rfl, rfl, ?_, ?_⟩
  · intro m hm hne
    subst hm
    simp [catchResponse, hne]
  · intro h
    subst h
    rfl

/-- Witness for C9 (amended) at a concrete store error. -/
theorem C9_internal_error_amended_witness :
    (catchResponse (some "boom")).message = "boom" :=
  (C9_internal_error_amended (some "boom")).2.2.1 "boom" rfl (by decide)

lemma uploadReceipt_found (db : UploadDb) (uid : String) (h : Nat)
    (a : Option Analysis) (now : Int) (r : ReceiptRec)
    (hfind : findReceiptByImageHash db.receipts h = some r) :
    uploadReceipt db uid h a now = ⟨.duplicateReceipt, db, false⟩ := by
  simp [uploadReceipt, hfind]

lemma uploadReceipt_not_found (db : UploadDb) (uid : String) (h : Nat)
    (a : Option Analysis) (now : Int)
    (hfind : findReceiptByImageHash db.receipts h = none) :
    uploadReceipt db uid h a now
      = ⟨(uploadAfterDupCheck db uid h a now).1,
         (uploadAfterDupCheck db uid h a now).2, true⟩ := by
  simp [uploadReceipt, hfind]

lemma uploadAfterDupCheck_blocking (db : UploadDb) (uid : String) (h : Nat)
    (a : Option Analysis) (now : Int)
    (hb : hasBlocking (buildReasons (extractFields a) now) = true) :
    uploadAfterDupCheck db uid h a now
      = (.receiptRejected (buildReasons (extractFields a) now)
          (extractFields a).amount (extractFields a).transactionDate
          (extractFields a).rawDateText (extractFields a).merchantName, db) := by
  simp [uploadAfterDupCheck, hb]

lemma uploadAfterDupCheck_limit (db : UploadDb) (uid : String) (h : Nat)
    (a : Option Analysis) (now : Int)
    (hb : hasBlocking (buildReasons (extractFields a) now) = false)
    (hcount : DAILY_RECEIPT_LIMIT ≤ countReceiptsForUserOnDay db.receipts uid now) :
    uploadAfterDupCheck db uid h a now = (.dailyLimitReached, db) := by
  simp [uploadAfterDupCheck, hb, hcount]

lemma uploadAfterDupCheck_accept (db : UploadDb) (uid : String) (h : Nat)
    (a : Option Analysis) (now : Int)
    (hb : hasBlocking (buildReasons (extractFields a) now) = false)
    (hcount : countReceiptsForUserOnDay db.receipts uid now < DAILY_RECEIPT_LIMIT) :
    uploadAfterDupCheck db uid h a now
      = (.success uid (resolveAmount (extractFields a).amount)
          ⌊min (resolveAmount (extractFields a).amount) MAX_AMOUNT_FOR_POINTS⌋
          (db.users uid + ⌊min (resolveAmount (extractFields a).amount) MAX_AMOUNT_FOR_POINTS⌋)
          (extractFields a).transactionDate (extractFields a).rawDateText
          (extractFields a).merchantName,
         ⟨(addPoints db.users uid
             ⌊min (resolveAmount (extractFields a).amount) MAX_AMOUNT_FOR_POINTS⌋).1,
          db.receipts ++
            [⟨uid, h, resolveAmount (extractFields a).amount,
              ⌊min (resolveAmount (extractFields a).amount) MAX_AMOUNT_FOR_POINTS⌋,
              (extractFields a).merchantName, (extractFields a).transactionDate, now⟩]⟩) := by
  simp [uploadAfterDupCheck, hb, not_le.mpr hcount, addPoints]

lemma find?_map_stamp (l : List Reward) (id : String) (now : Int) :
    (l.map (fun rw => if rw.id == id then stampRedeemed now rw else rw)).find?
        (fun r => r.id == id)
      = (l.find? (fun r => r.id == id)).map (fun r => stampRedeemed now r) := by
  induction l with
  | nil => rfl
  | cons a l ih =>
      simp only [List.map_cons]
      by_cases h : (a.id == id) = true
      · rw [if_pos h,
          List.find?_cons_of_pos (p := fun r : Reward => r.id == id) _ (by simpa [stampRedeemed] using h),
          List.find?_cons_of_pos (p := fun r : Reward => r.id == id) _ h]
        rfl
      · rw [if_neg h,
          List.find?_cons_of_neg (p := fun r : Reward => r.id == id) _ (by simpa using h),
          List.find?_cons_of_neg (p := fun r : Reward => r.id == id) _ (by simpa using h)]
        exact ih

/-- C4: a submission whose image bytes carry an already-persisted
fingerprint — any user's — is rejected with DUPLICATE_RECEIPT before the
document extractor is invoked and without mutating any state; a
persisted receipt makes the lookup succeed, an accepted submission
persists its fingerprint, and receipts are never removed, so the same
bytes are accepted at most once across all users. -/
theorem C4_duplicate_fingerprint (db : UploadDb) (uid : String) (h : Nat)
    (a : Option Analysis) (now : Int) :
    (∀ r, findReceiptByImageHash db.receipts h = some r →
       uploadReceipt db uid h a now = ⟨.duplicateReceipt, db, false⟩ ∧
       UploadResponse.duplicateReceipt.status = 400) ∧
    (∀ r ∈ db.receipts, r.imageHash = h →
       ∃ r', findReceiptByImageHash db.receipts h = some r') ∧
    ((uploadReceipt db uid h a now).response.isSuccess = true →
       ∃ r', r' ∈ (uploadReceipt db uid h a now).db.receipts ∧ r'.imageHash = h ∧
         findReceiptByImageHash (uploadReceipt db uid h a now).db.receipts h = some r') ∧
    (∀ r ∈ db.receipts, r ∈ (uploadReceipt db uid h a now).db.receipts) := by
  refine ⟨?_, ?_, ?_, ?_⟩
  · intro r hfo
    exact ⟨uploadReceipt_found db uid h a now r hfo, rfl⟩
  · intro r hmem hhash
    have : (findReceiptByImageHash db.receipts h).isSome = true := by
      rw [findReceiptByImageHash, List.find?_isSome]
      exact ⟨r, hmem, by simp [hhash]⟩
    exact Option.isSome_iff_exists.mp this
  · intro hsucc
    cases hfo : findReceiptByImageHash db.receipts h with
    | some r =>
        rw [uploadReceipt_found db uid h a now r hfo] at hsucc
        simp [UploadResponse.isSuccess] at hsucc
    | none =>
        rw [uploadReceipt_not_found db uid h a now hfo] at hsucc ⊢
        by_cases hb : hasBlocking (buildReasons (extractFields a) now) = true
        · rw [uploadAfterDupCheck_blocking db uid h a now hb] at hsucc
          simp [UploadResponse.isSuccess] at hsucc
        · have hb' := Bool.not_eq_true _ |>.mp hb
          by_cases hcount : DAILY_RECEIPT_LIMIT ≤ countReceiptsForUserOnDay db.receipts uid now
          · rw [uploadAfterDupCheck_limit db uid h a now hb' hcount] at hsucc
            simp [UploadResponse.isSuccess] at hsucc
          · rw [uploadAfterDupCheck_accept db uid h a now hb' (not_le.mp hcount)]
            refine ⟨_, List.mem_append_right _ (List.mem_singleton_self _), rfl, ?_⟩
            rw [findReceiptByImageHash] at hfo ⊢
            simp [List.find?_append, hfo]
  · intro r hmem
    cases hfo : findReceiptByImageHash db.receipts h with
    | some r0 =>
        rw [uploadReceipt_found db uid h a now r0 hfo]
        exact hmem
    | none =>
        rw [uploadReceipt_not_found db uid h a now hfo]
        by_cases hb : hasBlocking (buildReasons (extractFields a) now) = true
        · rw [uploadAfterDupCheck_blocking db uid h a now hb]
          exact hmem
        · have hb' := Bool.not_eq_true _ |>.mp hb
          by_cases hcount : DAILY_RECEIPT_LIMIT ≤ countReceiptsForUserOnDay db.receipts uid now
          · rw [uploadAfterDupCheck_limit db uid h a now hb' hcount]
            exact hmem
          · rw [uploadAfterDupCheck_accept db uid h a now hb' (not_le.mp hcount)]
            exact List.mem_append_left _ hmem

/-- Witness for C4: resubmitting bytes whose fingerprint is already in
the store (stored by a different user) is rejected without reaching the
extractor. -/
theorem C4_duplicate_fingerprint_witness :
    uploadReceipt ⟨fun _ => 0, [⟨"u1", 7, 42, 42, none, none, 0⟩]⟩ "u2" 7 none 5
      = ⟨.duplicateReceipt, ⟨fun _ => 0, [⟨"u1", 7, 42, 42, none, none, 0⟩]⟩, false⟩ :=
  ((C4_duplicate_fingerprint ⟨fun _ => 0, [⟨"u1", 7, 42, 42, none, none, 0⟩]⟩
    "u2" 7 none 5).1 ⟨"u1", 7, 42, 42, none, none, 0⟩ (by rfl)).1

/-- C8: when a user already has `DAILY_RECEIPT_LIMIT = 3` (or more)
receipts on the current server-local calendar day, a further submission
is rejected with 400 DAILY_LIMIT_REACHED even though every other check
passed, and no receipt is persisted and no points are credited. -/
theorem C8_daily_cap (db : UploadDb) (uid : String) (h : Nat)
    (a : Option Analysis) (now : Int)
    (hfind : findReceiptByImageHash db.receipts h = none)
    (hb : hasBlocking (buildReasons (extractFields a) now) = false)
    (hcount : DAILY_RECEIPT_LIMIT ≤ countReceiptsForUserOnDay db.receipts uid now) :
    uploadReceipt db uid h a now = ⟨.dailyLimitReached, db, true⟩ ∧
    UploadResponse.dailyLimitReached.status = 400 ∧
    DAILY_RECEIPT_LIMIT = 3 := by
  rw [uploadReceipt_not_found db uid h a now hfind,
    uploadAfterDupCheck_limit db uid h a now hb hcount]
  exact ⟨rfl, rfl, rfl⟩

/-- Witness for C8: end-to-end scenario 3 — the fourth receipt of the
same user on the same calendar day, with all other checks passing. -/
theorem C8_daily_cap_witness :
    uploadReceipt
        ⟨fun _ => 9,
         [⟨"u1", 1, 20, 20, none, some 5, 5⟩, ⟨"u1", 2, 30, 30, none, some 5, 5⟩,
          ⟨"u1", 3, 25, 25, none, some 5, 5⟩]⟩
        "u1" 4
        (some ⟨some 42, some "Burger King", some 5, some "05/01/1970", some true⟩) 5
      = ⟨.dailyLimitReached,
         ⟨fun _ => 9,
          [⟨"u1", 1, 20, 20, none, some 5, 5⟩, ⟨"u1", 2, 30, 30, none, some 5, 5⟩,
           ⟨"u1", 3, 25, 25, none, some 5, 5⟩]⟩, true⟩ :=
  (C8_daily_cap
    ⟨fun _ => 9,
     [⟨"u1", 1, 20, 20, none, some 5, 5⟩, ⟨"u1", 2, 30, 30, none, some 5, 5⟩,
      ⟨"u1", 3, 25, 25, none, some 5, 5⟩]⟩
    "u1" 4 (some ⟨some 42, some "Burger King", some 5, some "05/01/1970", some true⟩) 5
    (by decide) (by decide) (by decide)).1

lemma hasBlocking_of_mem (reasons : List UploadReason) (r : UploadReason)
    (hr : r ∈ reasons) (hb : isBlockingReason r = true) :
    hasBlocking reasons = true :=
  List.any_eq_true.mpr ⟨r, hr, hb⟩

lemma dateReasons_none (now : Int) : dateReasons none now = [.DATE_NOT_DETECTED] := rfl

lemma dateReasons_old (d now : Int) (h : MAX_RECEIPT_AGE_DAYS < now - d) :
    dateReasons (some d) now = [.RECEIPT_TOO_OLD] := by
  simp [dateReasons, computeReceiptAgeDays, h]

lemma dateReasons_future (d now : Int) (h : now - d < -1) :
    dateReasons (some d) now = [.RECEIPT_IN_FUTURE] := by
  have h2 : ¬ MAX_RECEIPT_AGE_DAYS < now - d := by
    unfold MAX_RECEIPT_AGE_DAYS
    omega
  simp [dateReasons, computeReceiptAgeDays, h, h2]

lemma dateReasons_ok (d now : Int) (h1 : -1 ≤ now - d)
    (h2 : now - d ≤ MAX_RECEIPT_AGE_DAYS) :
    dateReasons (some d) now = [] := by
  have h3 : ¬ MAX_RECEIPT_AGE_DAYS < now - d := not_lt.mpr h2
  have h4 : ¬ now - d < -1 := not_lt.mpr h1
  simp [dateReasons, computeReceiptAgeDays, h3, h4]

lemma mem_buildReasons_of_date (e : Extracted) (now : Int) (r : UploadReason)
    (hr : r ∈ dateReasons e.transactionDate now) : r ∈ buildReasons e now := by
  unfold buildReasons
  exact List.mem_append.mpr (Or.inl (List.mem_append.mpr (Or.inr hr)))

lemma not_mem_buildReasons (e : Extracted) (now : Int) (r : UploadReason)
    (hm : r ≠ .MERCHANT_NOT_BURGER_KING) (ha : r ≠ .INVALID_AMOUNT)
    (hd : r ∉ dateReasons e.transactionDate now) : r ∉ buildReasons e now := by
  intro hmem
  rcases List.mem_append.mp hmem with hmem | hmem
  · rcases List.mem_append.mp hmem with hmem | hmem
    · unfold merchantReasons at hmem
      split at hmem <;> simp_all
    · exact hd hmem
  · unfold amountReasons at hmem
    split at hmem <;> simp_all

/-- C5: with no resolvable transaction date the pipeline rejects with
DATE_NOT_DETECTED; a resolved date older than 2 whole calendar days
rejects with RECEIPT_TOO_OLD; an apparent futureness of more than 1
calendar day rejects with RECEIPT_IN_FUTURE, while up to 1 day of
futureness produces no date reason at all; each of the three reasons is
blocking: the submission is rejected with no state mutation. -/
theorem C5_date_window (db : UploadDb) (uid : String) (h : Nat)
    (a : Option Analysis) (now : Int)
    (hfind : findReceiptByImageHash db.receipts h = none) :
    ((extractFields a).transactionDate = none →
       UploadReason.DATE_NOT_DETECTED ∈ buildReasons (extractFields a) now ∧
       uploadReceipt db uid h a now
         = ⟨.receiptRejected (buildReasons (extractFields a) now)
              (extractFields a).amount (extractFields a).transactionDate
              (extractFields a).rawDateText (extractFields a).merchantName, db, true⟩) ∧
    (∀ d, (extractFields a).transactionDate = some d →
       (MAX_RECEIPT_AGE_DAYS < computeReceiptAgeDays d now →
          UploadReason.RECEIPT_TOO_OLD ∈ buildReasons (extractFields a) now ∧
          uploadReceipt db uid h a now
            = ⟨.receiptRejected (buildReasons (extractFields a) now)
                 (extractFields a).amount (extractFields a).transactionDate
                 (extractFields a).rawDateText (extractFields a).merchantName, db, true⟩) ∧
       (computeReceiptAgeDays d now < -1 →
          UploadReason.RECEIPT_IN_FUTURE ∈ buildReasons (extractFields a) now ∧
          uploadReceipt db uid h a now
            = ⟨.receiptRejected (buildReasons (extractFields a) now)
                 (extractFields a).amount (extractFields a).transactionDate
                 (extractFields a).rawDateText (extractFields a).merchantName, db, true⟩) ∧
       (-1 ≤ computeReceiptAgeDays d now →
          UploadReason.RECEIPT_IN_FUTURE ∉ buildReasons (extractFields a) now) ∧
       (-1 ≤ computeReceiptAgeDays d now →
          computeReceiptAgeDays d now ≤ MAX_RECEIPT_AGE_DAYS →
          UploadReason.RECEIPT_TOO_OLD ∉ buildReasons (extractFields a) now ∧
          UploadReason.DATE_NOT_DETECTED ∉ buildReasons (extractFields a) now)) := by
  have hreject : ∀ r : UploadReason, r ∈ buildReasons (extractFields a) now →
      isBlockingReason r = true →
      uploadReceipt db uid h a now
        = ⟨.receiptRejected (buildReasons (extractFields a) now)
             (extractFields a).amount (extractFields a).transactionDate
             (extractFields a).rawDateText (extractFields a).merchantName, db, true⟩ := by
    intro r hr hb
    rw [uploadReceipt_not_found db uid h a now hfind,
      uploadAfterDupCheck_blocking db uid h a now
        (hasBlocking_of_mem _ r hr hb)]
  constructor
  · intro htx
    have hmem : UploadReason.DATE_NOT_DETECTED ∈ buildReasons (extractFields a) now := by
      apply mem_buildReasons_of_date
      rw [htx, dateReasons_none]
      exact List.mem_singleton_self _
    exact ⟨hmem, hreject _ hmem rfl⟩
  · intro d htx
    refine ⟨?_, ?_, ?_, ?_⟩
    · intro hage
      have hmem : UploadReason.RECEIPT_TOO_OLD ∈ buildReasons (extractFields a) now := by
        apply mem_buildReasons_of_date
        rw [htx, dateReasons_old d now hage]
        exact List.mem_singleton_self _
      exact ⟨hmem, hreject _ hmem rfl⟩
    · intro hage
      have hmem : UploadReason.RECEIPT_IN_FUTURE ∈ buildReasons (extractFields a) now := by
        apply mem_buildReasons_of_date
        rw [htx, dateReasons_future d now hage]
        exact List.mem_singleton_self _
      exact ⟨hmem, hreject _ hmem rfl⟩
    · intro hage
      refine not_mem_buildReasons _ _ _ (by simp) (by simp) ?_
      rw [htx]
      by_cases h5 : MAX_RECEIPT_AGE_DAYS < now - d
      · rw [dateReasons_old d now h5]
        simp
      · rw [dateReasons_ok d now hage (not_lt.mp h5)]
        simp
    · intro hage1 hage2
      constructor
      · refine not_mem_buildReasons _ _ _ (by simp) (by simp) ?_
        rw [htx, dateReasons_ok d now hage1 hage2]
        simp
      · refine not_mem_buildReasons _ _ _ (by simp) (by simp) ?_
        rw [htx, dateReasons_ok d now hage1 hage2]
        simp

/-- Witness for C5: a submission whose extractor output carries no
resolvable date is rejected with DATE_NOT_DETECTED. -/
theorem C5_date_window_witness :
    UploadReason.DATE_NOT_DETECTED ∈ buildReasons (extractFields none) 5 ∧
    uploadReceipt ⟨fun _ => 0, []⟩ "u1" 7 none 5
      = ⟨.receiptRejected (buildReasons (extractFields none) 5) none none none none,
         ⟨fun _ => 0, []⟩, true⟩ :=
  (C5_date_window ⟨fun _ => 0, []⟩ "u1" 7 none 5 rfl).1 rfl

lemma closestFold_spec (now : Int) (l : List Int) :
    ∀ a : Int,
      (closestFold now a l = a ∨ closestFold now a l ∈ l) ∧
      |closestFold now a l - now| ≤ |a - now| ∧
      ∀ c ∈ l, |closestFold now a l - now| ≤ |c - now| := by
  induction l with
  | nil =>
      intro a
      refine ⟨Or.inl rfl, le_refl _, ?_⟩
      intro c hc
      simp at hc
  | cons x xs ih =>
      intro a
      have hstep : closestFold now a (x :: xs)
          = closestFold now (if |x - now| < |a - now| then x else a) xs := by
        simp [closestFold]
      obtain ⟨hmem, hle, hall⟩ := ih (if |x - now| < |a - now| then x else a)
      rw [hstep]
      refine ⟨?_, ?_, ?_⟩
      · rcases hmem with hm | hm
        · by_cases hc : |x - now| < |a - now|
          · right
            rw [hm, if_pos hc]
            exact List.mem_cons_self x xs
          · left
            rw [hm, if_neg hc]
        · right
          exact List.mem_cons_of_mem _ hm
      · refine le_trans hle ?_
        by_cases hc : |x - now| < |a - now|
        · rw [if_pos hc]
          exact le_of_lt hc
        · rw [if_neg hc]
      · intro c hc'
        rcases List.mem_cons.mp hc' with rfl | hcm
        · refine le_trans hle ?_
          by_cases hc : |c - now| < |a - now|
          · rw [if_pos hc]
          · rw [if_neg hc]
            exact not_lt.mp hc
        · exact hall c hcm

lemma chooseClosest_spec (now : Int) (l : List Int) (d : Int)
    (h : chooseClosest now l = some d) :
    d ∈ l ∧ ∀ c ∈ l, |d - now| ≤ |c - now| := by
  cases l with
  | nil => simp [chooseClosest] at h
  | cons c rest =>
      simp only [chooseClosest, Option.some.injEq] at h
      subst h
      obtain ⟨hmem, hle, hall⟩ := closestFold_spec now rest c
      constructor
      · rcases hmem with hm | hm
        · rw [hm]
          exact List.mem_cons_self c rest
        · exact List.mem_cons_of_mem _ hm
      · intro x hx
        rcases List.mem_cons.mp hx with rfl | hxm
        · exact hle
        · exact hall x hxm

/-- C6: on every raw text whose first date-pattern match yields parts
`(p1, p2, y)`, normalizeReceiptDate builds the plausible day-first and
month-first interpretations (day component within 1..31, month within
1..12) and returns a candidate at minimal calendar distance from "now";
in particular "13/02/2025" at a now of 2025-02-13 resolves day-first and
"02/13/2025" at the same now resolves month-first, both to 13 Feb
2025. -/
theorem C6_date_disambiguation :
    (∀ (s : List Char) (now : Int) (p1 p2 y : Nat),
       findMatch s = some (p1, p2, y) →
       normalizeReceiptDate s now
           = some (chooseClosest now (candidates (fixYear y) p1 p2)) ∧
       (1 ≤ p1 ∧ p1 ≤ 31 ∧ 1 ≤ p2 ∧ p2 ≤ 12 →
          daysFromCivil (fixYear y) p2 p1 ∈ candidates (fixYear y) p1 p2) ∧
       (1 ≤ p1 ∧ p1 ≤ 12 ∧ 1 ≤ p2 ∧ p2 ≤ 31 →
          daysFromCivil (fixYear y) p1 p2 ∈ candidates (fixYear y) p1 p2) ∧
       (∀ d, chooseClosest now (candidates (fixYear y) p1 p2) = some d →
          d ∈ candidates (fixYear y) p1 p2 ∧
          ∀ c ∈ candidates (fixYear y) p1 p2, |d - now| ≤ |c - now|)) ∧
    normalizeReceiptDate "13/02/2025".data (daysFromCivil 2025 2 13)
        = some (some (daysFromCivil 2025 2 13)) ∧
    normalizeReceiptDate "02/13/2025".data (daysFromCivil 2025 2 13)
        = some (some (daysFromCivil 2025 2 13)) := by
  refine ⟨?_, by decide, by decide⟩
  intro s now p1 p2 y hmatch
  refine ⟨by simp [normalizeReceiptDate, hmatch], ?_, ?_, ?_⟩
  · rintro ⟨h1, h2, h3, h4⟩
    unfold candidates
    refine List.mem_append.mpr (Or.inl ?_)
    simp [pushCandidate, h1, h2, h3, h4]
  · rintro ⟨h1, h2, h3, h4⟩
    unfold candidates
    refine List.mem_append.mpr (Or.inr ?_)
    rw [if_pos ⟨h2, h4⟩]
    simp [pushCandidate, h1, h2, h3, h4]
  · intro d hd
    exact chooseClosest_spec now _ d hd

/-- Witness for C6: the general disambiguation property applied to the
concrete token "13/02/2025". -/
theorem C6_date_disambiguation_witness :
    normalizeReceiptDate "13/02/2025".data (daysFromCivil 2025 2 13)
      = some (chooseClosest (daysFromCivil 2025 2 13) (candidates (fixYear 2025) 13 2)) :=
  (C6_date_disambiguation.1 "13/02/2025".data (daysFromCivil 2025 2 13) 13 2 2025
    (by decide)).1

lemma resolveAmount_invalid (o : Option ℚ) (h : amountInvalid o = true) :
    resolveAmount o = 75 := by
  cases o with
  | none => rfl
  | some a =>
      have ha : a ≤ 0 := of_decide_eq_true (by simpa [amountInvalid] using h)
      simp [resolveAmount, ha]

lemma floor_min_75 : (⌊min (75 : ℚ) MAX_AMOUNT_FOR_POINTS⌋ : Int) = 75 := by
  norm_num [MAX_AMOUNT_FOR_POINTS]

/-- C7 (amended): when no positive amount was extracted and no blocking
reason applies, the pipeline accepts: it substitutes the fallback amount
75, computes 75 points from it, and records an INVALID_AMOUNT advisory
reason internally — but the 200 success body carries no reasons field,
so INVALID_AMOUNT is not surfaced to the caller; INVALID_AMOUNT on its
own never causes rejection. -/
theorem C7_amount_fallback (db : UploadDb) (uid : String) (h : Nat)
    (a : Option Analysis) (now : Int)
    (hfind : findReceiptByImageHash db.receipts h = none)
    (hinv : amountInvalid (extractFields a).amount = true)
    (hb : hasBlocking (buildReasons (extractFields a) now) = false)
    (hcount : countReceiptsForUserOnDay db.receipts uid now < DAILY_RECEIPT_LIMIT) :
    UploadReason.INVALID_AMOUNT ∈ buildReasons (extractFields a) now ∧
    resolveAmount (extractFields a).amount = 75 ∧
    uploadReceipt db uid h a now
      = ⟨.success uid 75 75 (db.users uid + 75) (extractFields a).transactionDate
           (extractFields a).rawDateText (extractFields a).merchantName,
         ⟨(addPoints db.users uid 75).1,
          db.receipts ++ [⟨uid, h, 75, 75, (extractFields a).merchantName,
            (extractFields a).transactionDate, now⟩]⟩, true⟩ ∧
    mentionsInvalidAmount (uploadReceipt db uid h a now).response = false ∧
    (uploadReceipt db uid h a now).response.status = 200 := by
  have hres : resolveAmount (extractFields a).amount = 75 :=
    resolveAmount_invalid _ hinv
  have heq : uploadReceipt db uid h a now
      = ⟨.success uid 75 75 (db.users uid + 75) (extractFields a).transactionDate
           (extractFields a).rawDateText (extractFields a).merchantName,
         ⟨(addPoints db.users uid 75).1,
          db.receipts ++ [⟨uid, h, 75, 75, (extractFields a).merchantName,
            (extractFields a).transactionDate, now⟩]⟩, true⟩ := by
    rw [uploadReceipt_not_found db uid h a now hfind,
      uploadAfterDupCheck_accept db uid h a now hb hcount, hres, floor_min_75]
  have hmem : UploadReason.INVALID_AMOUNT ∈ buildReasons (extractFields a) now := by
    unfold buildReasons amountReasons
    rw [if_pos hinv]
    exact List.mem_append.mpr (Or.inr (List.mem_singleton_self _))
  refine ⟨hmem, hres, heq, ?_, ?_⟩ <;> rw [heq] <;> rfl

/-- Witness for C7 (amended): extractor returns no amount but a
confirmed merchant and today's date on an empty store. -/
theorem C7_amount_fallback_witness :
    uploadReceipt ⟨fun _ => 0, []⟩ "u1" 7
        (some ⟨none, some "Burger King", some 5, none, some true⟩) 5
      = ⟨.success "u1" 75 75 75 (some 5) none (some "Burger King"),
         ⟨(addPoints (fun _ => 0) "u1" 75).1,
          [⟨"u1", 7, 75, 75, some "Burger King", some 5, 5⟩]⟩, true⟩ :=
  (C7_amount_fallback ⟨fun _ => 0, []⟩ "u1" 7
    (some ⟨none, some "Burger King", some 5, none, some true⟩) 5
    rfl rfl (by decide) (by decide)).2.2.1

/-- C7 counterexample: on that same concrete input the claim's
"surfaces an INVALID_AMOUNT advisory reason to the caller" fails — the
submission is accepted with the fallback amount, and the success
response does not mention INVALID_AMOUNT anywhere. -/
theorem C7_counterexample :
    (uploadReceipt ⟨fun _ => 0, []⟩ "u1" 7
        (some ⟨none, some "Burger King", some 5, none, some true⟩) 5).response
      = .success "u1" 75 75 75 (some 5) none (some "Burger King") ∧
    mentionsInvalidAmount
      (uploadReceipt ⟨fun _ => 0, []⟩ "u1" 7
        (some ⟨none, some "Burger King", some 5, none, some true⟩) 5).response
      = false := by
  have heq : uploadReceipt ⟨fun _ => 0, []⟩ "u1" 7
      (some ⟨none, some "Burger King", some 5, none, some true⟩) 5
      = ⟨.success "u1" 75 75 75 (some 5) none (some "Burger King"),
         ⟨(addPoints (fun _ => 0) "u1" 75).1,
          [⟨"u1", 7, 75, 75, some "Burger King", some 5, 5⟩]⟩, true⟩ := by
    rw [uploadReceipt_not_found ⟨fun _ => 0, []⟩ "u1" 7
        (some ⟨none, some "Burger King", some 5, none, some true⟩) 5 rfl,
      uploadAfterDupCheck_accept ⟨fun _ => 0, []⟩ "u1" 7
        (some ⟨none, some "Burger King", some 5, none, some true⟩) 5 (by decide) (by decide),
      show resolveAmount (extractFields
        (some ⟨none, some "Burger King", some 5, none, some true⟩)).amount = 75 from rfl,
      floor_min_75]
    rfl
  rw [heq]
  exact ⟨rfl, rfl⟩

/-- C1 (code bug): on an accepted submission with extracted amount
42.50 and every check passing, the code computes
`pointsEarned = Math.floor(Math.min(amount, 80))` with no division by
the documented 10-units-per-point ratio: it credits 42 points and
returns the uncapped stored amount 42.50, while the specified formula
`floor(min(42.50, 80) / 10)` yields 4. -/
theorem C1_points_ratio_failing_input :
    (uploadReceipt ⟨fun _ => 0, []⟩ "u1" 7
        (some ⟨some (85/2), some "Burger King", some 5, some "05/01/1970", some true⟩) 5).response
      = .success "u1" (85/2) 42 42 (some 5) (some "05/01/1970") (some "Burger King") ∧
    (⌊min ((85:ℚ)/2) MAX_AMOUNT_FOR_POINTS⌋ : Int) = 42 ∧
    (⌊((85:ℚ)/2) / 10⌋ : Int) = 4 ∧
    (42 : Int) ≠ 4 := by
  have hres : resolveAmount (some ((85:ℚ)/2)) = 85/2 := by
    have hpos : ¬ ((85:ℚ)/2 ≤ 0) := by norm_num
    simp [resolveAmount, hpos]
  have hfloor : (⌊min ((85:ℚ)/2) MAX_AMOUNT_FOR_POINTS⌋ : Int) = 42 := by
    norm_num [MAX_AMOUNT_FOR_POINTS]
  have heq : uploadReceipt ⟨fun _ => 0, []⟩ "u1" 7
      (some ⟨some (85/2), some "Burger King", some 5, some "05/01/1970", some true⟩) 5
      = ⟨.success "u1" (85/2) 42 42 (some 5) (some "05/01/1970") (some "Burger King"),
         ⟨(addPoints (fun _ => 0) "u1" 42).1,
          [⟨"u1", 7, 85/2, 42, some "Burger King", some 5, 5⟩]⟩, true⟩ := by
    rw [uploadReceipt_not_found ⟨fun _ => 0, []⟩ "u1" 7
        (some ⟨some (85/2), some "Burger King", some 5, some "05/01/1970", some true⟩) 5 rfl,
      uploadAfterDupCheck_accept ⟨fun _ => 0, []⟩ "u1" 7
        (some ⟨some (85/2), some "Burger King", some 5, some "05/01/1970", some true⟩) 5
        (by norm_num [hasBlocking, buildReasons,
          merchantReasons, dateReasons, amountReasons, amountInvalid, extractFields,
          computeReceiptAgeDays, MAX_RECEIPT_AGE_DAYS, isBlockingReason, normStr])
        (by decide)]
    rw [show (extractFields (some ⟨some (85/2), some "Burger King", some 5,
        some "05/01/1970", some true⟩)).amount = some ((85:ℚ)/2) from rfl, hres, hfloor]
    rfl
  refine ⟨by rw [heq], hfloor, by norm_num, by decide⟩

/-- C2: redeeming an existing un-redeemed reward returns Valid exactly
once, flipping `redeemed` from false to true and stamping `redeemedAt`;
every subsequent call returns AlreadyRedeemed with the store unchanged,
so `redeemedAt` never changes after the first success; other rewards are
untouched, and the invariant `redeemedAt` set iff `redeemed` is
preserved. -/
theorem C2_redeem_exactly_once (rewards : List Reward) (id : String) (r : Reward)
    (t t2 : Int)
    (hfind : rewards.find? (fun rw => rw.id == id) = some r)
    (hnot : r.redeemed = false) :
    (redeemRewardOp rewards id t).1 = .valid (stampRedeemed t r) ∧
    (stampRedeemed t r).redeemed = true ∧
    (stampRedeemed t r).redeemedAt = some t ∧
    (redeemRewardOp (redeemRewardOp rewards id t).2 id t2).1
        = .alreadyRedeemed (stampRedeemed t r) ∧
    (redeemRewardOp (redeemRewardOp rewards id t).2 id t2).2
        = (redeemRewardOp rewards id t).2 ∧
    (∀ rw ∈ rewards, (rw.id == id) = false → rw ∈ (redeemRewardOp rewards id t).2) ∧
    ((∀ rw ∈ rewards, rw.redeemedAt.isSome = rw.redeemed) →
       ∀ rw ∈ (redeemRewardOp rewards id t).2, rw.redeemedAt.isSome = rw.redeemed) := by
  have h1 : redeemRewardOp rewards id t
      = (.valid (stampRedeemed t r),
         rewards.map (fun rw => if rw.id == id then stampRedeemed t rw else rw)) := by
    unfold redeemRewardOp
    rw [hfind]
    simp [hnot]
  have hfind2 : (rewards.map (fun rw => if rw.id == id then stampRedeemed t rw else rw)).find?
      (fun rw => rw.id == id) = some (stampRedeemed t r) := by
    rw [find?_map_stamp, hfind]
    rfl
  have h2 : redeemRewardOp
      (rewards.map (fun rw => if rw.id == id then stampRedeemed t rw else rw)) id t2
      = (.alreadyRedeemed (stampRedeemed t r),
         rewards.map (fun rw => if rw.id == id then stampRedeemed t rw else rw)) := by
    unfold redeemRewardOp
    rw [hfind2]
    simp [stampRedeemed]
  have hsnd : (redeemRewardOp rewards id t).2
      = rewards.map (fun rw => if rw.id == id then stampRedeemed t rw else rw) := by
    rw [h1]
  refine ⟨by rw [h1], rfl, rfl, ?_, ?_, ?_, ?_⟩
  · rw [hsnd, h2]
  · rw [hsnd, h2]
  · intro rw hmem hne
    rw [hsnd]
    have hstep := List.mem_map_of_mem
      (fun rw => if rw.id == id then stampRedeemed t rw else rw) hmem
    simp only [hne, Bool.false_eq_true, if_false] at hstep
    exact hstep
  · intro hinv rw hmem
    rw [hsnd] at hmem
    obtain ⟨a, ha, rfl⟩ := List.mem_map.mp hmem
    by_cases hc : (a.id == id) = true
    · simp [hc, stampRedeemed]
    · rw [if_neg hc]
      exact hinv a ha

/-- Witness for C2 on a concrete one-reward store. -/
theorem C2_redeem_exactly_once_witness :
    (redeemRewardOp [⟨"r1", "u1", "Free Sundae", 100, none, false, 0, none⟩] "r1" 5).1
      = .valid (stampRedeemed 5 ⟨"r1", "u1", "Free Sundae", 100, none, false, 0, none⟩) :=
  (C2_redeem_exactly_once [⟨"r1", "u1", "Free Sundae", 100, none, false, 0, none⟩]
    "r1" ⟨"r1", "u1", "Free Sundae", 100, none, false, 0, none⟩ 5 9 (by decide) rfl).1

/-- C3: issuing a reward against a tier whose resolved cost exceeds the
user's balance fails with the 400 NOT_ENOUGH_POINTS response, leaving
balances and the reward store untouched; with sufficient balance,
exactly the tier's cost is debited and a reward in the Issued state
(`redeemed = false`, `redeemedAt = null`) is appended. -/
theorem C3_issue_reward_guarded (users : String → Int) (rewards : List Reward)
    (userId name newId : String) (cost : Int) (tier : Option String)
    (body : RedeemBody) (now : Int)
    (hres : resolveTier body = (name, cost, tier)) :
    (users userId < cost →
       redeemRewardHandler users rewards userId body newId now
         = (.notEnoughPoints, users, rewards)) ∧
    RedeemResponse.status .notEnoughPoints = 400 ∧
    (cost ≤ users userId →
       redeemRewardHandler users rewards userId body newId now
         = (.ok newId name cost (users userId - cost) ("reward:" ++ newId) tier,
            fun x => if x = userId then users userId - cost else users x,
            rewards ++ [⟨newId, userId, name, cost, tier, false, now, none⟩])) := by
  refine ⟨?_, rfl, ?_⟩
  · intro h
    simp [redeemRewardHandler, createReward, hres, h]
  · intro h
    simp [redeemRewardHandler, createReward, hres, not_lt.mpr h]

/-- Witness for C3: end-to-end scenario 4 — a user holding 35 points
requests the 40-point FREE_MENU tier. -/
theorem C3_issue_reward_guarded_witness :
    redeemRewardHandler (fun _ => 35) [] "u1" ⟨some "FREE_MENU", none, none⟩ "rw1" 0
      = (.notEnoughPoints, fun _ => 35, []) :=
  (C3_issue_reward_guarded (fun _ => 35) [] "u1" "🍔+🥤 Free menu (≤ 60 MAD)" "rw1"
    40 (some "FREE_MENU") ⟨some "FREE_MENU", none, none⟩ 0 rfl).1 (by decide)

/-- C9 counterexample: for the store failure whose exception message is
"Request timed out contacting Cosmos DB", the 500 INTERNAL_ERROR body
repeats that internal text verbatim instead of a generic message. -/
theorem C9_counterexample :
    (catchResponse (some "Request timed out contacting Cosmos DB")).message
      = "Request timed out contacting Cosmos DB" ∧
    (catchResponse (some "Request timed out contacting Cosmos DB")).message
      ≠ "Unknown error" := by
  constructor
  · rfl
  · decide

end BK
